import Mathlib

/-!
Shallow embedding of the help-desk application's answer-resolution pipeline
(the Go sources: `findAnswer`, `generateAnswer`, `saveToHistory`,
`loadHistory`, `createBleveIndex`, and the favorites table operations),
together with theorems settling the specification's claims about it.

External collaborators (the SQLite store, the bleve full-text index and the
Ollama HTTP endpoint) are modelled as explicit environment parameters: the
index query outcome, the generation-call outcome and the current timestamp
are inputs to the pure model, and database tables are Lean lists.
-/

deriving instance DecidableEq for Except

namespace Support

/-- `FAQEntry` from the source: a stored question/answer pair with its
integer primary key. -/
structure FAQEntry where
  ID : Int
  Question : String
  Answer : String
deriving DecidableEq, Repr

/-- Go `strings.TrimSpace`, modelled on the character list: drop leading
and trailing whitespace. -/
def trimSpace (s : String) : String :=
  ⟨((s.data.dropWhile Char.isWhitespace).reverse.dropWhile Char.isWhitespace).reverse⟩

/-- Case-insensitive string equality, modelling Go `strings.EqualFold`
(ASCII case folding; the sources compare trimmed questions with it). -/
def eqFold (s t : String) : Bool :=
  s.data.map Char.toLower == t.data.map Char.toLower

/-- The exact-match predicate of `findAnswer`: Go
`strings.EqualFold(strings.TrimSpace(entry.Question), strings.TrimSpace(question))`. -/
def exactPred (question : String) (e : FAQEntry) : Bool :=
  eqFold (trimSpace e.Question) (trimSpace question)

/-- Which branch of the resolver produced the answer (the spec's
provenance tag for `QueryResult`). -/
inductive Provenance where
  | exactMatch
  | indexedMatch
  | generated
deriving DecidableEq, Repr

/-- The distinct failure points of `generateAnswer`: each `return "", err`
site in the source. -/
inductive GenError where
  | marshalErr
  | transportErr
  | readErr
  | unmarshalErr
deriving DecidableEq, Repr

/-- `OllamaRequest` as populated by `generateAnswer`: model, prompt, stream
flag and the `options` map entries (temperature, top_p, num_predict). -/
structure OllamaRequest where
  model : String
  prompt : String
  stream : Bool
  temperature : ℚ
  top_p : ℚ
  num_predict : Int
deriving DecidableEq, Repr

/-- `OllamaResponse` from the source: the parsed JSON reply. -/
structure OllamaResponse where
  response : String
  done : Bool
deriving DecidableEq, Repr

/-- Environment outcome of one `generateAnswer` call: which of the four
fallible steps fails, or the HTTP reply (status code plus the result of
JSON-unmarshalling its body; `none` means the body is not valid JSON). -/
inductive GenStep where
  | marshalFail
  | transportFail
  | readFail
  | reply (statusCode : Nat) (parsed : Option OllamaResponse)
deriving DecidableEq, Repr

/-- Result of running `generateAnswer`: the returned value and the list of
HTTP POST requests issued (one per attempt; the source never retries). -/
structure GenRun where
  result : Except GenError String
  posted : List OllamaRequest
deriving DecidableEq, Repr

/-- The request `generateAnswer` constructs: fixed model "mistral", the
formatted prompt, `Stream: false`, and options temperature 0.7, top_p 0.9,
num_predict 2048. -/
def buildOllamaRequest (question context : String) : OllamaRequest :=
  { model := "mistral"
    prompt := "Вопрос: " ++ question ++ "\nКонтекст: " ++ context ++ "\nОтвет:"
    stream := false
    temperature := 7/10
    top_p := 9/10
    num_predict := 2048 }

/-- `generateAnswer` from the source: marshal the request, POST it, read the
body, unmarshal, and return the `Response` field. The HTTP status code is
never inspected. `posted` records each POST attempt. -/
def generateAnswerRun (question context : String) (step : GenStep) : GenRun :=
  match step with
  | .marshalFail => { result := .error .marshalErr, posted := [] }
  | .transportFail =>
      { result := .error .transportErr, posted := [buildOllamaRequest question context] }
  | .readFail =>
      { result := .error .readErr, posted := [buildOllamaRequest question context] }
  | .reply _ none =>
      { result := .error .unmarshalErr, posted := [buildOllamaRequest question context] }
  | .reply _ (some r) =>
      { result := .ok r.response, posted := [buildOllamaRequest question context] }

/-- A ranked hit returned by the bleve index: document ID and relevance
score. -/
structure SearchHit where
  ID : String
  Score : ℚ
deriving DecidableEq, Repr

/-- Environment outcome of the index query `index.Search(searchRequest)`:
an error, or a ranked hit list. -/
inductive SearchOutcome where
  | err
  | ok (hits : List SearchHit)
deriving DecidableEq, Repr

/-- A row of the `history` table: question, answer, and the DB-assigned
`date` timestamp. -/
structure HistoryRow where
  question : String
  answer : String
  date : Nat
deriving DecidableEq, Repr

/-- `saveToHistory` from the source: `INSERT INTO history (question, answer)
VALUES (?, ?)`; the store assigns the `date` column (`now`). -/
def saveToHistory (table : List HistoryRow) (question answer : String) (now : Nat) :
    List HistoryRow :=
  table ++ [{ question := question, answer := answer, date := now }]

/-- The two user-visible failure modes of a resolution: index-query error or
generation-call error. -/
inductive ResolveError where
  | indexErr
  | genErr (e : GenError)
deriving DecidableEq, Repr

/-- Observable outcome of one run of `findAnswer`'s background pipeline:
the answer (with provenance) or the error shown, whether the index was
queried, how often `generateAnswer` was invoked and what it posted, and the
resulting history table. -/
structure ResolveOutput where
  result : Except ResolveError (String × Provenance)
  indexQueried : Bool
  genCalls : Nat
  genPosts : List OllamaRequest
  history : List HistoryRow
deriving DecidableEq, Repr

/-- The generative-fallback arm of `findAnswer`: call `generateAnswer` once;
on error show it and write nothing, on success the response is the answer
and it is saved to history. -/
def genBranch (history : List HistoryRow) (question : String) (gen : GenStep) (now : Nat) :
    ResolveOutput :=
  match generateAnswerRun question "" gen with
  | { result := .error e, posted := posted } =>
      { result := .error (.genErr e), indexQueried := true, genCalls := 1,
        genPosts := posted, history := history }
  | { result := .ok ans, posted := posted } =>
      { result := .ok (ans, .generated), indexQueried := true, genCalls := 1,
        genPosts := posted, history := saveToHistory history question ans now }

/-- The arm of `findAnswer` taken when the index query returned hits: if
the top hit scores above 0.3, look up the entry whose rendered ID equals
the hit's document ID (Go leaves `answer` as the zero value `""` when no
entry matches) and save to history; otherwise fall back to generation. -/
def indexedBranch (entries : List FAQEntry) (history : List HistoryRow)
    (question : String) (top : SearchHit) (gen : GenStep) (now : Nat) :
    ResolveOutput :=
  if (3 : ℚ)/10 < top.Score then
    match List.find? (fun e => toString e.ID == top.ID) entries with
    | some e =>
        { result := .ok (e.Answer, .indexedMatch), indexQueried := true,
          genCalls := 0, genPosts := [],
          history := saveToHistory history question e.Answer now }
    | none =>
        { result := .ok ("", .indexedMatch), indexQueried := true,
          genCalls := 0, genPosts := [],
          history := saveToHistory history question "" now }
  else
    genBranch history question gen now

/-- The background pipeline of `findAnswer` from the source: first a linear
scan for a trimmed case-insensitive exact match; otherwise query the index
for the single top hit; if it scores above 0.3 look up the entry whose
rendered ID equals the hit's document ID (the answer stays `""` when none
matches); otherwise fall back to `generateAnswer`. Every successful arm
appends one history row. -/
def findAnswerModel (entries : List FAQEntry) (history : List HistoryRow)
    (question : String) (search : SearchOutcome) (gen : GenStep) (now : Nat) :
    ResolveOutput :=
  match List.find? (exactPred question) entries with
  | some e =>
      { result := .ok (e.Answer, .exactMatch), indexQueried := false, genCalls := 0,
        genPosts := [], history := saveToHistory history question e.Answer now }
  | none =>
      match search with
      | .err =>
          { result := .error .indexErr, indexQueried := true, genCalls := 0,
            genPosts := [], history := history }
      | .ok hits =>
          match hits with
          | top :: _ => indexedBranch entries history question top gen now
          | [] => genBranch history question gen now

/-- A row of the `favorites` table (question/answer by value; the
auto-increment key and timestamp are not consulted by the operations the
claims concern). -/
structure FavoriteRow where
  question : String
  answer : String
deriving DecidableEq, Repr

/-- The favorite-add operation: `INSERT INTO favorites (question, answer)
VALUES (?, ?)`. -/
def addFavorite (favs : List FavoriteRow) (q a : String) : List FavoriteRow :=
  favs ++ [{ question := q, answer := a }]

/-- The favorite-delete operation: `DELETE FROM favorites WHERE
question = ? AND answer = ?` removes every row matching the pair. -/
def deleteFavorite (favs : List FavoriteRow) (q a : String) : List FavoriteRow :=
  favs.filter (fun r => !(r.question == q && r.answer == a))

/-- Environment for `createBleveIndex`: whether `bleve.New("faq.bleve", …)`
succeeds (no storage on disk yet), fails because storage exists (in which
case `bleve.Open` yields the existing documents), or both calls fail. -/
inductive IndexInit where
  | fresh
  | existingOpenOk (content : List (String × FAQEntry))
  | existingOpenFail
deriving DecidableEq, Repr

/-- `createBleveIndex` from the source: try to create a fresh index and
index every entry under its rendered ID; if creation fails, open the
existing index and return it as is (no re-indexing). -/
def createBleveIndexModel (entries : List FAQEntry) (init : IndexInit) :
    Except Unit (List (String × FAQEntry)) :=
  match init with
  | .fresh => .ok (entries.map (fun e => (toString e.ID, e)))
  | .existingOpenOk content => .ok content
  | .existingOpenFail => .error ()

/-- Descending-date order on history rows (the `ORDER BY date DESC` of
`loadHistory`). -/
def histGE (a b : HistoryRow) : Prop :=
  b.date ≤ a.date

instance : DecidableRel histGE :=
  fun a b => inferInstanceAs (Decidable (b.date ≤ a.date))

instance : IsTotal HistoryRow histGE :=
  ⟨fun a b => Nat.le_total b.date a.date⟩

instance : IsTrans HistoryRow histGE :=
  ⟨fun _ _ _ hab hbc => Nat.le_trans hbc hab⟩

/-- `loadHistory` from the source: `SELECT id, question, answer, date FROM
history ORDER BY date DESC LIMIT 10` — the rows sorted most-recent-first,
truncated to 10 at read time. -/
def loadHistory (table : List HistoryRow) : List HistoryRow :=
  (table.insertionSort histGE).take 10

/-- C7: `generateAnswer` errors exactly when marshalling, the HTTP
transport, reading the body, or JSON unmarshalling fails; the HTTP status
code is never inspected, and any reachable reply with a valid-JSON body
yields a nil error and the body's `response` field (possibly empty). -/
theorem generateAnswer_error_iff (q c : String) (step : GenStep) :
    ((generateAnswerRun q c step).result.isOk = false ↔
      ∀ sc r, step ≠ .reply sc (some r)) ∧
    (∀ sc sc' p, generateAnswerRun q c (.reply sc p) = generateAnswerRun q c (.reply sc' p)) ∧
    (∀ sc r, (generateAnswerRun q c (.reply sc (some r))).result = .ok r.response) := by
  refine ⟨?_, ?_, ?_⟩
  · cases step with
    | reply sc parsed => cases parsed <;> simp [generateAnswerRun, Except.isOk, Except.toBool]
    | _ => simp [generateAnswerRun, Except.isOk, Except.toBool]
  · intro sc sc' p
    cases p <;> rfl
  · intro sc r
    rfl

/-- C7 witness: with a reply whose body is not valid JSON, the call errors. -/
theorem generateAnswer_error_iff_witness :
    (generateAnswerRun "q" "" (.reply 200 none)).result.isOk = false :=
  (generateAnswer_error_iff "q" "" (.reply 200 none)).1.mpr
    (fun _ _ h => by simp at h)

/-- C10: `generateAnswer` issues exactly one HTTP POST per call (also when
the transport, read or parse later fails: no retry), with model "mistral",
non-streaming, temperature 0.7, top_p 0.9, num_predict 2048, and returns
the `response` field of the parsed `{response, done}` reply. -/
theorem generateAnswer_single_fixed_post (q c : String) (step : GenStep)
    (h : step ≠ GenStep.marshalFail) :
    (generateAnswerRun q c step).posted = [buildOllamaRequest q c] ∧
    (buildOllamaRequest q c).model = "mistral" ∧
    (buildOllamaRequest q c).stream = false ∧
    (buildOllamaRequest q c).temperature = 7/10 ∧
    (buildOllamaRequest q c).top_p = 9/10 ∧
    (buildOllamaRequest q c).num_predict = 2048 ∧
    (∀ sc r, (generateAnswerRun q c (.reply sc (some r))).result = .ok r.response) := by
  refine ⟨?_, rfl, rfl, rfl, rfl, rfl, fun sc r => rfl⟩
  cases step with
  | marshalFail => exact absurd rfl h
  | reply sc parsed => cases parsed <;> rfl
  | _ => rfl

/-- C10 witness: on a transport failure the single POST was still issued
exactly once, with the fixed request. -/
theorem generateAnswer_single_fixed_post_witness :
    (generateAnswerRun "q" "" GenStep.transportFail).posted
      = [buildOllamaRequest "q" ""] :=
  (generateAnswer_single_fixed_post "q" "" GenStep.transportFail (by simp)).1

/-- C8: `createBleveIndex` with existing on-disk storage opens and returns
the existing index content unchanged and without error (no re-indexing of
the current entries); only the fresh-creation branch indexes the loaded
entries under their rendered IDs. -/
theorem createBleveIndex_create_or_open (entries : List FAQEntry)
    (content : List (String × FAQEntry)) :
    createBleveIndexModel entries (.existingOpenOk content) = .ok content ∧
    createBleveIndexModel entries .fresh
      = .ok (entries.map (fun e => (toString e.ID, e))) :=
  ⟨rfl, rfl⟩

/-- C9: `loadHistory` returns rows in reverse-chronological order (dates
non-increasing), capped only by the read-time LIMIT of 10 (length is
min 10 with the table size), and every returned row is still in the table
(no deletion of older records). -/
theorem loadHistory_sorted_limited (table : List HistoryRow) :
    List.Sorted histGE (loadHistory table) ∧
    (loadHistory table).length = min 10 table.length ∧
    loadHistory table ⊆ table := by
  refine ⟨?_, ?_, ?_⟩
  · exact List.Pairwise.sublist (List.take_sublist 10 _)
      (List.sorted_insertionSort histGE table)
  · simp [loadHistory, (List.perm_insertionSort histGE table).length_eq]
  · intro x hx
    exact (List.perm_insertionSort histGE table).subset (List.take_subset _ _ hx)

/-- C9 witness: on a concrete three-row table the read returns all three
rows, newest first. -/
theorem loadHistory_sorted_limited_witness :
    (loadHistory [⟨"q1", "a1", 1⟩, ⟨"q2", "a2", 3⟩, ⟨"q3", "a3", 2⟩]).length
      = min 10 3 :=
  (loadHistory_sorted_limited [⟨"q1", "a1", 1⟩, ⟨"q2", "a2", 3⟩, ⟨"q3", "a3", 2⟩]).2.1

/-- C5 counterexample: starting from a favorites table already holding the
pair ("q", "a"), adding the pair and then deleting it empties the table —
the delete removes the pre-existing duplicate too, so size and content
differ from before the add. -/
theorem favorite_add_delete_counterexample :
    deleteFavorite (addFavorite [{ question := "q", answer := "a" }] "q" "a") "q" "a"
      ≠ [({ question := "q", answer := "a" } : FavoriteRow)] := by
  decide

/-- C5 amended: when the favorites table contains no row equal to the pair,
the favorite-add followed by favorite-delete of that pair restores the
table exactly (same size and content). -/
theorem favorite_add_delete_roundtrip (favs : List FavoriteRow) (q a : String)
    (h : ({ question := q, answer := a } : FavoriteRow) ∉ favs) :
    deleteFavorite (addFavorite favs q a) q a = favs := by
  unfold addFavorite deleteFavorite
  rw [List.filter_append]
  have h2 : List.filter (fun r => !(r.question == q && r.answer == a))
      [({ question := q, answer := a } : FavoriteRow)] = [] := by simp
  rw [h2, List.append_nil, List.filter_eq_self]
  intro r hr
  simp only [Bool.not_eq_eq_eq_not, Bool.not_true, Bool.and_eq_false_imp, beq_eq_false_iff_ne]
  intro hq
  intro ha
  apply h
  have : r = { question := q, answer := a } := by
    cases r
    simp_all
  rw [← this]
  exact hr

/-- C5 amended witness: add-then-delete on a table not containing the pair
returns the original table. -/
theorem favorite_add_delete_roundtrip_witness :
    deleteFavorite (addFavorite [{ question := "x", answer := "y" }] "q" "a") "q" "a"
      = [{ question := "x", answer := "y" }] :=
  favorite_add_delete_roundtrip [{ question := "x", answer := "y" }] "q" "a" (by decide)

/-- Helper: there is no exact match exactly when every entry fails the
trimmed case-insensitive comparison. -/
theorem find?_exact_eq_none (entries : List FAQEntry) (q : String)
    (hno : ∀ e ∈ entries, eqFold (trimSpace e.Question) (trimSpace q) = false) :
    List.find? (exactPred q) entries = none := by
  rw [List.find?_eq_none]
  intro e he
  simp [exactPred, hno e he]

/-- Helper: history bookkeeping of the generative-fallback arm — success
appends exactly the resolved pair, failure writes nothing. -/
theorem genBranch_history_effect (history : List HistoryRow) (q : String)
    (gen : GenStep) (now : Nat) :
    (∀ ans prov, (genBranch history q gen now).result = .ok (ans, prov) →
        (genBranch history q gen now).history
          = history ++ [{ question := q, answer := ans, date := now }]) ∧
    (∀ err, (genBranch history q gen now).result = .error err →
        (genBranch history q gen now).history = history) := by
  cases gen with
  | reply sc parsed =>
      cases parsed with
      | none =>
          refine ⟨fun ans prov hok => ?_, fun err herr => rfl⟩
          simp [genBranch, generateAnswerRun] at hok
      | some r =>
          refine ⟨fun ans prov hok => ?_, fun err herr => ?_⟩
          · have h' : Except.ok (ε := ResolveError) (r.response, Provenance.generated)
                = .ok (ans, prov) := hok
            injection h' with h''
            have h1 : r.response = ans := congrArg Prod.fst h''
            subst h1
            rfl
          · simp [genBranch, generateAnswerRun] at herr
  | marshalFail =>
      refine ⟨fun ans prov hok => ?_, fun err herr => rfl⟩
      simp [genBranch, generateAnswerRun] at hok
  | transportFail =>
      refine ⟨fun ans prov hok => ?_, fun err herr => rfl⟩
      simp [genBranch, generateAnswerRun] at hok
  | readFail =>
      refine ⟨fun ans prov hok => ?_, fun err herr => rfl⟩
      simp [genBranch, generateAnswerRun] at hok

/-- C1: a question that, after whitespace trimming, case-insensitively
equals some loaded FAQ entry's question resolves to such an entry's stored
answer via the exact-match branch, querying neither the index nor the
generation client. -/
theorem resolver_exact_match (entries : List FAQEntry) (history : List HistoryRow)
    (q : String) (search : SearchOutcome) (gen : GenStep) (now : Nat)
    (h : ∃ e ∈ entries, eqFold (trimSpace e.Question) (trimSpace q) = true) :
    ∃ e ∈ entries, eqFold (trimSpace e.Question) (trimSpace q) = true ∧
      (findAnswerModel entries history q search gen now).result
        = .ok (e.Answer, .exactMatch) ∧
      (findAnswerModel entries history q search gen now).indexQueried = false ∧
      (findAnswerModel entries history q search gen now).genCalls = 0 := by
  have hsome : (List.find? (exactPred q) entries).isSome := by
    rw [List.find?_isSome]
    obtain ⟨e, he, hpe⟩ := h
    exact ⟨e, he, hpe⟩
  obtain ⟨e₀, hfind⟩ := Option.isSome_iff_exists.mp hsome
  have hp : exactPred q e₀ = true := List.find?_some hfind
  have hred : findAnswerModel entries history q search gen now
      = { result := .ok (e₀.Answer, .exactMatch), indexQueried := false, genCalls := 0,
          genPosts := [], history := saveToHistory history q e₀.Answer now } := by
    unfold findAnswerModel
    rw [hfind]
  refine ⟨e₀, List.mem_of_find?_eq_some hfind, hp, ?_, ?_, ?_⟩ <;> rw [hred]

/-- C1 witness: a case- and whitespace-varied form of a stored question
resolves to its stored answer with no index query and no generation. -/
theorem resolver_exact_match_witness :
    ∃ e ∈ [(⟨1, "How to configure VPN?", "Open settings"⟩ : FAQEntry)],
      eqFold (trimSpace e.Question) (trimSpace "  how to configure vpn?  ") = true ∧
      (findAnswerModel [⟨1, "How to configure VPN?", "Open settings"⟩] []
          "  how to configure vpn?  " .err .marshalFail 0).result
        = .ok (e.Answer, .exactMatch) ∧
      (findAnswerModel [⟨1, "How to configure VPN?", "Open settings"⟩] []
          "  how to configure vpn?  " .err .marshalFail 0).indexQueried = false ∧
      (findAnswerModel [⟨1, "How to configure VPN?", "Open settings"⟩] []
          "  how to configure vpn?  " .err .marshalFail 0).genCalls = 0 :=
  resolver_exact_match [⟨1, "How to configure VPN?", "Open settings"⟩] []
    "  how to configure vpn?  " .err .marshalFail 0
    ⟨⟨1, "How to configure VPN?", "Open settings"⟩, by decide, by decide⟩

/-- C2: with no exact match and a top hit scoring above 0.3 whose document
ID matches some entry's rendered integer ID, the resolver returns that
entry's stored answer via the indexed-match branch without invoking the
generation client. -/
theorem resolver_indexed_match (entries : List FAQEntry) (history : List HistoryRow)
    (q : String) (top : SearchHit) (rest : List SearchHit) (gen : GenStep) (now : Nat)
    (hno : ∀ e ∈ entries, eqFold (trimSpace e.Question) (trimSpace q) = false)
    (hscore : (3 : ℚ)/10 < top.Score)
    (hid : ∃ e ∈ entries, toString e.ID = top.ID) :
    ∃ e ∈ entries, toString e.ID = top.ID ∧
      (findAnswerModel entries history q (.ok (top :: rest)) gen now).result
        = .ok (e.Answer, .indexedMatch) ∧
      (findAnswerModel entries history q (.ok (top :: rest)) gen now).genCalls = 0 := by
  have hnone := find?_exact_eq_none entries q hno
  have hsome : (List.find? (fun e => toString e.ID == top.ID) entries).isSome := by
    rw [List.find?_isSome]
    obtain ⟨e, he, hpe⟩ := hid
    exact ⟨e, he, by simp [hpe]⟩
  obtain ⟨e₀, hfind⟩ := Option.isSome_iff_exists.mp hsome
  have hpe₀ : toString e₀.ID = top.ID := by
    simpa using List.find?_some hfind
  have hred : findAnswerModel entries history q (.ok (top :: rest)) gen now
      = { result := .ok (e₀.Answer, .indexedMatch), indexQueried := true,
          genCalls := 0, genPosts := [],
          history := saveToHistory history q e₀.Answer now } := by
    unfold findAnswerModel
    rw [hnone]
    show indexedBranch entries history q top gen now = _
    unfold indexedBranch
    rw [if_pos hscore, hfind]
  exact ⟨e₀, List.mem_of_find?_eq_some hfind, hpe₀, by rw [hred], by rw [hred]⟩

/-- C2 witness: with a concrete top hit of score 1/2 > 3/10 whose ID
renders an existing entry, the stored answer is returned. -/
theorem resolver_indexed_match_witness :
    ∃ e ∈ [(⟨1, "Q1", "A1"⟩ : FAQEntry)], toString e.ID = "1" ∧
      (findAnswerModel [⟨1, "Q1", "A1"⟩] [] "unrelated"
          (.ok [⟨"1", 1/2⟩]) .marshalFail 0).result = .ok (e.Answer, .indexedMatch) ∧
      (findAnswerModel [⟨1, "Q1", "A1"⟩] [] "unrelated"
          (.ok [⟨"1", 1/2⟩]) .marshalFail 0).genCalls = 0 :=
  resolver_indexed_match [⟨1, "Q1", "A1"⟩] [] "unrelated" ⟨"1", 1/2⟩ [] .marshalFail 0
    (by decide) (by norm_num) ⟨⟨1, "Q1", "A1"⟩, by decide, by decide⟩

/-- C3: with no exact match and either no hits or a top score at most 0.3,
`generateAnswer` is invoked exactly once, and on a parsed reply its
`response` field is the returned answer with provenance generated. -/
theorem resolver_generated (entries : List FAQEntry) (history : List HistoryRow)
    (q : String) (hits : List SearchHit) (gen : GenStep) (now : Nat)
    (hno : ∀ e ∈ entries, eqFold (trimSpace e.Question) (trimSpace q) = false)
    (hlow : hits = [] ∨ ∃ top rest, hits = top :: rest ∧ top.Score ≤ (3 : ℚ)/10) :
    (findAnswerModel entries history q (.ok hits) gen now).genCalls = 1 ∧
    (∀ sc r, gen = .reply sc (some r) →
      (findAnswerModel entries history q (.ok hits) gen now).result
        = .ok (r.response, .generated)) := by
  have hnone := find?_exact_eq_none entries q hno
  have hgb : findAnswerModel entries history q (.ok hits) gen now
      = genBranch history q gen now := by
    rcases hlow with rfl | ⟨top, rest, rfl, hsc⟩
    · unfold findAnswerModel
      rw [hnone]
    · unfold findAnswerModel
      rw [hnone]
      show indexedBranch entries history q top gen now = _
      unfold indexedBranch
      rw [if_neg (not_lt.mpr hsc)]
  rw [hgb]
  constructor
  · cases gen with
    | reply sc parsed => cases parsed <;> rfl
    | marshalFail => rfl
    | transportFail => rfl
    | readFail => rfl
  · intro sc r hg
    rw [hg]
    rfl

/-- C3 witness: with an empty FAQ and no hits, a parsed reply "hello"
becomes the generated answer of the single generation call. -/
theorem resolver_generated_witness :
    (findAnswerModel [] [] "x" (.ok []) (.reply 200 (some ⟨"hello", true⟩)) 0).genCalls
      = 1 ∧
    (∀ sc r, (GenStep.reply 200 (some ⟨"hello", true⟩)) = .reply sc (some r) →
      (findAnswerModel [] [] "x" (.ok []) (.reply 200 (some ⟨"hello", true⟩)) 0).result
        = .ok (r.response, .generated)) :=
  resolver_generated [] [] "x" [] (.reply 200 (some ⟨"hello", true⟩)) 0
    (by simp) (Or.inl rfl)

/-- C6: a top hit above the threshold whose document ID matches no loaded
entry yields the empty string as the answer (no generation call), and that
empty answer is written to history as a successful resolution. -/
theorem resolver_stale_hit (entries : List FAQEntry) (history : List HistoryRow)
    (q : String) (top : SearchHit) (rest : List SearchHit) (gen : GenStep) (now : Nat)
    (hno : ∀ e ∈ entries, eqFold (trimSpace e.Question) (trimSpace q) = false)
    (hscore : (3 : ℚ)/10 < top.Score)
    (hid : ∀ e ∈ entries, toString e.ID ≠ top.ID) :
    (findAnswerModel entries history q (.ok (top :: rest)) gen now).result
      = .ok ("", .indexedMatch) ∧
    (findAnswerModel entries history q (.ok (top :: rest)) gen now).genCalls = 0 ∧
    (findAnswerModel entries history q (.ok (top :: rest)) gen now).history
      = history ++ [{ question := q, answer := "", date := now }] := by
  have hnone := find?_exact_eq_none entries q hno
  have hfid : List.find? (fun e => toString e.ID == top.ID) entries = none := by
    rw [List.find?_eq_none]
    intro e he
    simp [hid e he]
  have hred : findAnswerModel entries history q (.ok (top :: rest)) gen now
      = { result := .ok ("", .indexedMatch), indexQueried := true,
          genCalls := 0, genPosts := [],
          history := saveToHistory history q "" now } := by
    unfold findAnswerModel
    rw [hnone]
    show indexedBranch entries history q top gen now = _
    unfold indexedBranch
    rw [if_pos hscore, hfid]
  rw [hred]
  exact ⟨rfl, rfl, rfl⟩

/-- C6 witness: a hit with ID "2" and score 1/2 over a single entry with
ID 1 yields the empty answer, no generation, and an empty-answer history
row. -/
theorem resolver_stale_hit_witness :
    (findAnswerModel [⟨1, "Q1", "A1"⟩] [] "unrelated"
        (.ok [⟨"2", 1/2⟩]) .marshalFail 0).result = .ok ("", .indexedMatch) ∧
    (findAnswerModel [⟨1, "Q1", "A1"⟩] [] "unrelated"
        (.ok [⟨"2", 1/2⟩]) .marshalFail 0).genCalls = 0 ∧
    (findAnswerModel [⟨1, "Q1", "A1"⟩] [] "unrelated"
        (.ok [⟨"2", 1/2⟩]) .marshalFail 0).history
      = [] ++ [{ question := "unrelated", answer := "", date := 0 }] :=
  resolver_stale_hit [⟨1, "Q1", "A1"⟩] [] "unrelated" ⟨"2", 1/2⟩ [] .marshalFail 0
    (by decide) (by norm_num) (by decide)

/-- C4: every successful resolution appends exactly one history row holding
the resolved question/answer pair; every failed resolution (index error or
generation error) leaves the history table unchanged. -/
theorem resolver_history_append (entries : List FAQEntry) (history : List HistoryRow)
    (q : String) (search : SearchOutcome) (gen : GenStep) (now : Nat) :
    (∀ ans prov,
        (findAnswerModel entries history q search gen now).result = .ok (ans, prov) →
        (findAnswerModel entries history q search gen now).history
          = history ++ [{ question := q, answer := ans, date := now }]) ∧
    (∀ err,
        (findAnswerModel entries history q search gen now).result = .error err →
        (findAnswerModel entries history q search gen now).history = history) := by
  cases hfind : List.find? (exactPred q) entries with
  | some e =>
      have hred : findAnswerModel entries history q search gen now
          = { result := .ok (e.Answer, .exactMatch), indexQueried := false, genCalls := 0,
              genPosts := [], history := saveToHistory history q e.Answer now } := by
        unfold findAnswerModel
        rw [hfind]
      rw [hred]
      refine ⟨fun ans prov hok => ?_, fun err herr => ?_⟩
      · have h' : Except.ok (ε := ResolveError) (e.Answer, Provenance.exactMatch)
            = .ok (ans, prov) := hok
        injection h' with h''
        have h1 : e.Answer = ans := congrArg Prod.fst h''
        subst h1
        rfl
      · simp at herr
  | none =>
      cases search with
      | err =>
          have hred : findAnswerModel entries history q .err gen now
              = { result := .error .indexErr, indexQueried := true, genCalls := 0,
                  genPosts := [], history := history } := by
            unfold findAnswerModel
            rw [hfind]
          rw [hred]
          refine ⟨fun ans prov hok => ?_, fun err herr => rfl⟩
          simp at hok
      | ok hits =>
          cases hits with
          | nil =>
              have hred : findAnswerModel entries history q (.ok []) gen now
                  = genBranch history q gen now := by
                unfold findAnswerModel
                rw [hfind]
              rw [hred]
              exact genBranch_history_effect history q gen now
          | cons top rest =>
              have hred : findAnswerModel entries history q (.ok (top :: rest)) gen now
                  = indexedBranch entries history q top gen now := by
                unfold findAnswerModel
                rw [hfind]
              rw [hred]
              by_cases hs : (3 : ℚ)/10 < top.Score
              · cases hfid : List.find? (fun e => toString e.ID == top.ID) entries with
                | some e2 =>
                    have hred2 : indexedBranch entries history q top gen now
                        = { result := .ok (e2.Answer, .indexedMatch), indexQueried := true,
                            genCalls := 0, genPosts := [],
                            history := saveToHistory history q e2.Answer now } := by
                      unfold indexedBranch
                      rw [if_pos hs, hfid]
                    rw [hred2]
                    refine ⟨fun ans prov hok => ?_, fun err herr => ?_⟩
                    · have h' : Except.ok (ε := ResolveError)
                          (e2.Answer, Provenance.indexedMatch) = .ok (ans, prov) := hok
                      injection h' with h''
                      have h1 : e2.Answer = ans := congrArg Prod.fst h''
                      subst h1
                      rfl
                    · simp at herr
                | none =>
                    have hred2 : indexedBranch entries history q top gen now
                        = { result := .ok ("", .indexedMatch), indexQueried := true,
                            genCalls := 0, genPosts := [],
                            history := saveToHistory history q "" now } := by
                      unfold indexedBranch
                      rw [if_pos hs, hfid]
                    rw [hred2]
                    refine ⟨fun ans prov hok => ?_, fun err herr => ?_⟩
                    · have h' : Except.ok (ε := ResolveError)
                          ("", Provenance.indexedMatch) = .ok (ans, prov) := hok
                      injection h' with h''
                      have h1 : "" = ans := congrArg Prod.fst h''
                      subst h1
                      rfl
                    · simp at herr
              · have hred2 : indexedBranch entries history q top gen now
                    = genBranch history q gen now := by
                  unfold indexedBranch
                  rw [if_neg hs]
                rw [hred2]
                exact genBranch_history_effect history q gen now

/-- C4 witness: a successful exact-match resolution appends exactly the
resolved pair to an empty history table. -/
theorem resolver_history_append_witness :
    (findAnswerModel [(⟨1, "Q", "A"⟩ : FAQEntry)] [] "Q" .err .marshalFail 7).history
      = [] ++ [{ question := "Q", answer := "A", date := 7 }] :=
  (resolver_history_append [⟨1, "Q", "A"⟩] [] "Q" .err .marshalFail 7).1
    "A" .exactMatch (by decide)

end Support
